import Mathlib

/-!
Verification of the reputation/voting subsystem of the tech-ask-whys
repository.  The subsystem lives in the SQL migrations:

* `update_reputation_on_vote`, `handle_vote_update`, `handle_vote_delete`
  and their AFTER INSERT/UPDATE/DELETE triggers on `votes`
  (migration 20250904081333).
* `prevent_self_voting` and its BEFORE INSERT OR UPDATE trigger
  (migration 20250905111335).
* `get_vote_counts` (migration 20250902171945).

The embedding models the relevant tables as association lists:
`questions` and `answers` map a content id to its `author_id`,
`profiles` maps a `user_id` to its `reputation` score, and
`reputation_history` is the append-only audit ledger.
-/

namespace TechAskWhys

/-- A row of the `votes` table: the voter, the (mutually exclusive)
content references, and the boolean direction `is_upvote`. -/
structure VoteRow where
  user_id : Nat
  question_id : Option Nat
  answer_id : Option Nat
  is_upvote : Bool
  deriving DecidableEq

/-- A row of the `reputation_history` ledger table, as inserted by the
three trigger functions: `(user_id, points, reason, question_id, answer_id)`. -/
structure LedgerEntry where
  user_id : Nat
  points : Int
  reason : String
  question_id : Option Nat
  answer_id : Option Nat
  deriving DecidableEq

/-- The database state the triggers read and write: `questions` and
`answers` as `(id, author_id)` association lists, `profiles` as
`(user_id, reputation)` pairs, and the `reputation_history` ledger. -/
structure DBState where
  questions : List (Nat × Nat)
  answers : List (Nat × Nat)
  profiles : List (Nat × Int)
  reputation_history : List LedgerEntry
  deriving DecidableEq

/-- `SELECT author_id INTO x FROM t WHERE id = k`: the first matching
row's second component, `NULL` (`none`) when no row matches. -/
def lookupAssoc (l : List (Nat × Nat)) (k : Nat) : Option Nat :=
  (l.find? (fun p => p.1 == k)).map (fun p => p.2)

/-- The author-resolution step shared by all three trigger functions:
if `question_id IS NOT NULL` look the author up in `questions`,
`ELSIF answer_id IS NOT NULL` look it up in `answers`, otherwise the
declared variable stays `NULL`. -/
def authorOf (db : DBState) (v : VoteRow) : Option Nat :=
  match v.question_id with
  | some qid => lookupAssoc db.questions qid
  | none =>
    match v.answer_id with
    | some aid => lookupAssoc db.answers aid
    | none => none

/-- `UPDATE profiles SET reputation = GREATEST(1, reputation + c)
WHERE user_id = a`. -/
def updateReputation (profiles : List (Nat × Int)) (a : Nat) (c : Int) :
    List (Nat × Int) :=
  profiles.map (fun p => if p.1 == a then (p.1, max 1 (p.2 + c)) else p)

/-- The reputation of a user as read back from `profiles`. -/
def getReputation (db : DBState) (u : Nat) : Option Int :=
  (db.profiles.find? (fun p => p.1 == u)).map (fun p => p.2)

/-- `update_reputation_on_vote()` (AFTER INSERT ON votes): resolve the
target author; `reputation_change` is `CASE WHEN NEW.is_upvote THEN 5
ELSE -2 END` for questions and `CASE WHEN NEW.is_upvote THEN 10 ELSE -2
END` for answers.  When the author resolved, clamp-update the profile
and insert one `reputation_history` row; otherwise do nothing.
(The `0` in the both-`none` branch mirrors the variable staying `NULL`:
it is never used because the author is `none` in that case.) -/
def update_reputation_on_vote (db : DBState) (new : VoteRow) : DBState :=
  let reputation_change : Int :=
    match new.question_id with
    | some _ => if new.is_upvote then 5 else -2
    | none =>
      match new.answer_id with
      | some _ => if new.is_upvote then 10 else -2
      | none => 0
  match authorOf db new with
  | some target_author_id =>
    { db with
      profiles := updateReputation db.profiles target_author_id reputation_change
      reputation_history := db.reputation_history ++
        [{ user_id := target_author_id
           points := reputation_change
           reason :=
             match new.question_id with
             | some _ =>
               if new.is_upvote then "Question upvoted" else "Question downvoted"
             | none =>
               if new.is_upvote then "Answer upvoted" else "Answer downvoted"
           question_id := new.question_id
           answer_id := new.answer_id }] }
  | none => db

/-- `handle_vote_update()` (AFTER UPDATE ON votes): author and both
deltas branch on OLD's target (`old_reputation_change` from
`OLD.is_upvote`, `new_reputation_change` from `NEW.is_upvote`, both
through OLD's kind table); the profile gets
`GREATEST(1, reputation - old_change + new_change)` and the ledger row
records `new_change - old_change` with a per-kind "vote changed"
reason and NEW's content references. -/
def handle_vote_update (db : DBState) (old new : VoteRow) : DBState :=
  let old_reputation_change : Int :=
    match old.question_id with
    | some _ => if old.is_upvote then 5 else -2
    | none =>
      match old.answer_id with
      | some _ => if old.is_upvote then 10 else -2
      | none => 0
  let new_reputation_change : Int :=
    match old.question_id with
    | some _ => if new.is_upvote then 5 else -2
    | none =>
      match old.answer_id with
      | some _ => if new.is_upvote then 10 else -2
      | none => 0
  match authorOf db old with
  | some target_author_id =>
    { db with
      profiles := updateReputation db.profiles target_author_id
        (new_reputation_change - old_reputation_change)
      reputation_history := db.reputation_history ++
        [{ user_id := target_author_id
           points := new_reputation_change - old_reputation_change
           reason :=
             match new.question_id with
             | some _ => "Question vote changed"
             | none => "Answer vote changed"
           question_id := new.question_id
           answer_id := new.answer_id }] }
  | none => db

/-- `handle_vote_delete()` (AFTER DELETE ON votes): the reversal delta is
`CASE WHEN OLD.is_upvote THEN -5 ELSE 2 END` for questions and
`CASE WHEN OLD.is_upvote THEN -10 ELSE 2 END` for answers, applied with
the same clamp, and one ledger row with a per-kind "vote removed"
reason and OLD's content references. -/
def handle_vote_delete (db : DBState) (old : VoteRow) : DBState :=
  let reputation_change : Int :=
    match old.question_id with
    | some _ => if old.is_upvote then -5 else 2
    | none =>
      match old.answer_id with
      | some _ => if old.is_upvote then -10 else 2
      | none => 0
  match authorOf db old with
  | some target_author_id =>
    { db with
      profiles := updateReputation db.profiles target_author_id reputation_change
      reputation_history := db.reputation_history ++
        [{ user_id := target_author_id
           points := reputation_change
           reason :=
             match old.question_id with
             | some _ => "Question vote removed"
             | none => "Answer vote removed"
           question_id := old.question_id
           answer_id := old.answer_id }] }
  | none => db

/-- `prevent_self_voting()`, first IF block: when voting on a question,
reject if the question's author is the voter. -/
def checkSelfQuestion (db : DBState) (new : VoteRow) : Except String Unit :=
  match new.question_id with
  | some qid =>
    if lookupAssoc db.questions qid = some new.user_id then
      Except.error "You cannot vote on your own question"
    else Except.ok ()
  | none => Except.ok ()

/-- `prevent_self_voting()`, second IF block: when voting on an answer,
reject if the answer's author is the voter. -/
def checkSelfAnswer (db : DBState) (new : VoteRow) : Except String Unit :=
  match new.answer_id with
  | some aid =>
    if lookupAssoc db.answers aid = some new.user_id then
      Except.error "You cannot vote on your own answer"
    else Except.ok ()
  | none => Except.ok ()

/-- `prevent_self_voting()` (BEFORE INSERT OR UPDATE ON votes): the two
IF blocks run in sequence; a `RAISE EXCEPTION` in the first aborts
before the second.  A `NULL` author compares unequal to the voter, so a
dangling reference passes the guard. -/
def prevent_self_voting (db : DBState) (new : VoteRow) : Except String Unit :=
  match checkSelfQuestion db new with
  | Except.error e => Except.error e
  | Except.ok _ => checkSelfAnswer db new

/-- A mutation of the `votes` table, as seen by the triggers: the
inserted row, the old and new rows of an update, or the deleted row. -/
inductive VoteOp where
  | insert (v : VoteRow)
  | update (old new : VoteRow)
  | delete (v : VoteRow)

/-- One vote write with its triggers: `prevent_self_voting` runs BEFORE
INSERT OR UPDATE and an exception aborts the whole write (the database
state is untouched); otherwise the matching AFTER trigger fires.
DELETE has no guard. -/
def applyVoteOp (db : DBState) : VoteOp → DBState
  | VoteOp.insert v =>
    match prevent_self_voting db v with
    | Except.error _ => db
    | Except.ok _ => update_reputation_on_vote db v
  | VoteOp.update old new =>
    match prevent_self_voting db new with
    | Except.error _ => db
    | Except.ok _ => handle_vote_update db old new
  | VoteOp.delete v => handle_vote_delete db v

/-- `get_vote_counts(target_type, target_id)`: for `'question'` (resp.
`'answer'`) sum `CASE WHEN is_upvote THEN 1 ELSE 0 END` and
`CASE WHEN NOT is_upvote THEN 1 ELSE 0 END` over the votes whose
`question_id` (resp. `answer_id`) matches; any other `target_type`
returns no row (`none`).  A pure read: it mutates nothing. -/
def get_vote_counts (target_type : String) (target_id : Nat)
    (votes : List VoteRow) : Option (Nat × Nat) :=
  if target_type = "question" then
    let rows := votes.filter (fun v => v.question_id == some target_id)
    some (rows.foldl (fun s v => s + (if v.is_upvote then 1 else 0)) 0,
          rows.foldl (fun s v => s + (if !v.is_upvote then 1 else 0)) 0)
  else if target_type = "answer" then
    let rows := votes.filter (fun v => v.answer_id == some target_id)
    some (rows.foldl (fun s v => s + (if v.is_upvote then 1 else 0)) 0,
          rows.foldl (fun s v => s + (if !v.is_upvote then 1 else 0)) 0)
  else
    none

/-- The spec's fixed points table, indexed by content kind (is the
target a question?) and vote direction: question upvote +5, question
downvote -2, answer upvote +10, answer downvote -2. -/
def pointsTable (kindQuestion : Bool) (up : Bool) : Int :=
  if kindQuestion then (if up then 5 else -2) else (if up then 10 else -2)

/-- The spec's insert-path ledger reason, naming content kind and
direction. -/
def castReason (kindQuestion : Bool) (up : Bool) : String :=
  if kindQuestion then
    (if up then "Question upvoted" else "Question downvoted")
  else
    (if up then "Answer upvoted" else "Answer downvoted")

/-- A reference db used to instantiate the theorems on concrete data:
user 0 has the initial reputation 1 and authored question 0 and
answer 0; the ledger is empty. -/
def exDB : DBState :=
  { questions := [(0, 0)], answers := [(0, 0)],
    profiles := [(0, 1)], reputation_history := [] }

lemma find_updateReputation (l : List (Nat × Int)) (a : Nat) (c : Int) :
    ((updateReputation l a c).find? fun p => p.1 == a) =
      (l.find? fun p => p.1 == a).map fun p => (p.1, max 1 (p.2 + c)) := by
  rw [updateReputation, List.find?_map]
  have hpred : ((fun p : Nat × Int => p.1 == a) ∘
      fun p => if p.1 == a then (p.1, max 1 (p.2 + c)) else p) =
      fun p : Nat × Int => p.1 == a := by
    funext p
    by_cases h : (p.1 == a) <;> simp [Function.comp, h]
  rw [hpred]
  cases hf : l.find? fun p : Nat × Int => p.1 == a with
  | none => rfl
  | some q =>
    have hq := List.find?_some hf
    simp [hq]
    exact fun h => absurd (by simpa using hq) h

lemma getReputation_profiles_update (db : DBState) (a : Nat) (c : Int)
    (hist : List LedgerEntry) :
    getReputation
      { db with profiles := updateReputation db.profiles a c
                reputation_history := hist } a =
      (getReputation db a).map fun r => max 1 (r + c) := by
  simp [getReputation, find_updateReputation, Option.map_map]
  rfl

lemma updateReputation_floor (l : List (Nat × Int)) (a : Nat) (c : Int)
    (h : ∀ p ∈ l, 1 ≤ p.2) : ∀ p ∈ updateReputation l a c, 1 ≤ p.2 := by
  intro p hp
  simp only [updateReputation, List.mem_map] at hp
  obtain ⟨q, hq, rfl⟩ := hp
  by_cases hqa : (q.1 == a)
  · simp only [hqa, if_pos]
    exact le_max_left 1 (q.2 + c)
  · simp only [hqa, if_neg]
    exact h q hq

/-- C1: a freshly inserted vote whose content author resolves adjusts
the author's reputation by exactly `pointsTable[kind][direction]`
(question upvote +5, question downvote -2, answer upvote +10, answer
downvote -2), clamped below at 1, and appends exactly one ledger entry
whose delta is that table value and whose reason names the content kind
and direction.  (The trigger fires on every insert, hence in particular
on fresh ones; uniqueness of (voter, content) is a separate constraint
that cannot change what the insert path does.) -/
theorem insert_path_applies_points_table
    (db : DBState) (v : VoteRow) (a : Nat) (r : Int)
    (ha : authorOf db v = some a) (hr : getReputation db a = some r) :
    getReputation (update_reputation_on_vote db v) a =
        some (max 1 (r + pointsTable v.question_id.isSome v.is_upvote)) ∧
    (update_reputation_on_vote db v).reputation_history =
      db.reputation_history ++
        [{ user_id := a
           points := pointsTable v.question_id.isSome v.is_upvote
           reason := castReason v.question_id.isSome v.is_upvote
           question_id := v.question_id
           answer_id := v.answer_id }] := by
  rcases hq : v.question_id with _ | qid
  · rcases hv : v.answer_id with _ | aid
    · exfalso
      simp [authorOf, hq, hv] at ha
    · refine ⟨?_, ?_⟩
      · simp only [update_reputation_on_vote, ha, hq, hv]
        rw [getReputation_profiles_update, hr]
        simp [pointsTable, hq]
      · simp [update_reputation_on_vote, ha, hq, hv, pointsTable, castReason]
  · refine ⟨?_, ?_⟩
    · simp only [update_reputation_on_vote, ha, hq]
      rw [getReputation_profiles_update, hr]
      simp [pointsTable, hq]
    · simp [update_reputation_on_vote, ha, hq, pointsTable, castReason]

/-- Witness for C1: in the reference db, user 1 upvotes question 0
authored by user 0 (reputation 1); the score becomes
`max 1 (1 + 5) = 6` and the single ledger row carries `+5` and
`"Question upvoted"`. -/
theorem insert_path_applies_points_table_witness :
    getReputation (update_reputation_on_vote exDB
        ⟨1, some 0, none, true⟩) 0 = some 6 ∧
    (update_reputation_on_vote exDB ⟨1, some 0, none, true⟩).reputation_history =
      [{ user_id := 0, points := 5, reason := "Question upvoted",
         question_id := some 0, answer_id := none }] := by
  have h := insert_path_applies_points_table exDB
    ⟨1, some 0, none, true⟩ 0 1 (by decide) (by decide)
  simpa [exDB, pointsTable, castReason] using h

lemma update_reputation_on_vote_floor (db : DBState) (v : VoteRow)
    (h : ∀ p ∈ db.profiles, 1 ≤ p.2) :
    ∀ p ∈ (update_reputation_on_vote db v).profiles, 1 ≤ p.2 := by
  unfold update_reputation_on_vote
  cases hA : authorOf db v
  · simpa [hA] using h
  · simp only [hA]
    exact updateReputation_floor _ _ _ h

lemma handle_vote_update_floor (db : DBState) (old new : VoteRow)
    (h : ∀ p ∈ db.profiles, 1 ≤ p.2) :
    ∀ p ∈ (handle_vote_update db old new).profiles, 1 ≤ p.2 := by
  unfold handle_vote_update
  cases hA : authorOf db old
  · simpa [hA] using h
  · simp only [hA]
    exact updateReputation_floor _ _ _ h

lemma handle_vote_delete_floor (db : DBState) (old : VoteRow)
    (h : ∀ p ∈ db.profiles, 1 ≤ p.2) :
    ∀ p ∈ (handle_vote_delete db old).profiles, 1 ≤ p.2 := by
  unfold handle_vote_delete
  cases hA : authorOf db old
  · simpa [hA] using h
  · simp only [hA]
    exact updateReputation_floor _ _ _ h

lemma applyVoteOp_floor (db : DBState) (op : VoteOp)
    (h : ∀ p ∈ db.profiles, 1 ≤ p.2) :
    ∀ p ∈ (applyVoteOp db op).profiles, 1 ≤ p.2 := by
  cases op with
  | insert v =>
    simp only [applyVoteOp]
    cases hP : prevent_self_voting db v
    · simpa [hP] using h
    · simpa [hP] using update_reputation_on_vote_floor db v h
  | update old new =>
    simp only [applyVoteOp]
    cases hP : prevent_self_voting db new
    · simpa [hP] using h
    · simpa [hP] using handle_vote_update_floor db old new h
  | delete v => exact handle_vote_delete_floor db v h

/-- C2: if every stored reputation score is at least 1 (as on a fresh
account, whose initial score is 1), then after any sequence of vote
insert, direction-change and delete operations every stored score is
still at least 1: each ledger path writes scores only through the
`GREATEST(1, _)` clamp.  Applied to every prefix of a sequence, this
gives the invariant after each operation. -/
theorem score_floor_invariant (db : DBState) (ops : List VoteOp)
    (h : ∀ p ∈ db.profiles, 1 ≤ p.2) :
    ∀ p ∈ (ops.foldl applyVoteOp db).profiles, 1 ≤ p.2 := by
  induction ops generalizing db with
  | nil => exact h
  | cons op ops ih => exact ih _ (applyVoteOp_floor db op h)

/-- Witness for C2: starting from the reference db (score 1), a
question downvote, its retraction, an answer downvote and a vote flip
leave every stored score at least 1. -/
theorem score_floor_invariant_witness :
    (∀ p ∈ exDB.profiles, 1 ≤ p.2) ∧
    ∀ p ∈ (([VoteOp.insert ⟨1, some 0, none, false⟩,
             VoteOp.delete ⟨1, some 0, none, false⟩,
             VoteOp.insert ⟨1, none, some 0, false⟩,
             VoteOp.update ⟨1, none, some 0, false⟩ ⟨1, none, some 0, true⟩
            ]).foldl applyVoteOp exDB).profiles, 1 ≤ p.2 :=
  ⟨by decide, score_floor_invariant exDB _ (by decide)⟩

/-- C3: flipping an existing vote's direction (same content target,
author resolves) adjusts the author's score by exactly
`pointsTable[kind][newDirection] - pointsTable[kind][oldDirection]`,
clamped below at 1, and appends exactly one ledger entry whose delta is
that net difference and whose reason is the direction-agnostic
"vote changed" label for the content kind. -/
theorem update_path_net_delta
    (db : DBState) (old new : VoteRow) (a : Nat) (r : Int)
    (hq : old.question_id = new.question_id)
    (_hv : old.answer_id = new.answer_id)
    (_hd : old.is_upvote ≠ new.is_upvote)
    (ha : authorOf db old = some a) (hr : getReputation db a = some r) :
    getReputation (handle_vote_update db old new) a =
        some (max 1 (r + (pointsTable new.question_id.isSome new.is_upvote -
          pointsTable new.question_id.isSome old.is_upvote))) ∧
    (handle_vote_update db old new).reputation_history =
      db.reputation_history ++
        [{ user_id := a
           points := pointsTable new.question_id.isSome new.is_upvote -
             pointsTable new.question_id.isSome old.is_upvote
           reason := if new.question_id.isSome then "Question vote changed"
             else "Answer vote changed"
           question_id := new.question_id
           answer_id := new.answer_id }] := by
  rcases hqo : old.question_id with _ | qid
  · rcases hvo : old.answer_id with _ | aid
    · exfalso
      simp [authorOf, hqo, hvo] at ha
    · refine ⟨?_, ?_⟩
      · simp only [handle_vote_update, ha, hqo, hvo]
        rw [getReputation_profiles_update, hr]
        have harith : r - (if old.is_upvote then (10 : Int) else -2) +
            (if new.is_upvote then (10 : Int) else -2) =
            r + ((if new.is_upvote then (10 : Int) else -2) -
              (if old.is_upvote then (10 : Int) else -2)) := by ring
        simp [pointsTable, ← hq, hqo, harith]
      · simp [handle_vote_update, ha, hqo, hvo, pointsTable, ← hq]
  · refine ⟨?_, ?_⟩
    · simp only [handle_vote_update, ha, hqo]
      rw [getReputation_profiles_update, hr]
      have harith : r - (if old.is_upvote then (5 : Int) else -2) +
          (if new.is_upvote then (5 : Int) else -2) =
          r + ((if new.is_upvote then (5 : Int) else -2) -
            (if old.is_upvote then (5 : Int) else -2)) := by ring
      simp [pointsTable, ← hq, hqo, harith]
    · simp [handle_vote_update, ha, hqo, pointsTable, ← hq]

/-- Witness for C3: in the reference db, user 1 flips an answer
downvote into an answer upvote: the score moves from 1 by
`10 - (-2) = 12` to 13 and the single ledger row carries `+12` and
`"Answer vote changed"`. -/
theorem update_path_net_delta_witness :
    getReputation (handle_vote_update exDB
        ⟨1, none, some 0, false⟩ ⟨1, none, some 0, true⟩) 0 = some 13 ∧
    (handle_vote_update exDB ⟨1, none, some 0, false⟩
        ⟨1, none, some 0, true⟩).reputation_history =
      [{ user_id := 0, points := 12, reason := "Answer vote changed",
         question_id := none, answer_id := some 0 }] := by
  have h := update_path_net_delta exDB ⟨1, none, some 0, false⟩
    ⟨1, none, some 0, true⟩ 0 1 rfl rfl (by decide) (by decide) (by decide)
  simpa [exDB, pointsTable] using h

/-- C4, counterexample: deleting user 1's answer upvote in the
reference db appends a ledger entry whose reason is
`"Answer vote removed"`, not the bare `"vote removed"` the claim
states: the delete path prefixes the reason with the content kind. -/
theorem delete_path_reason_counterexample :
    (handle_vote_delete exDB ⟨1, none, some 0, true⟩).reputation_history.map
        (fun e => e.reason) = ["Answer vote removed"] ∧
    ¬ (handle_vote_delete exDB ⟨1, none, some 0, true⟩).reputation_history.map
        (fun e => e.reason) = ["vote removed"] := by decide

/-- C4, amended: deleting a vote whose content author resolves adjusts
the author's score by the negation of the insert-path delta (-5 for a
question upvote, +2 for a question downvote, -10 for an answer upvote,
+2 for an answer downvote), clamped below at 1, and appends exactly one
ledger entry with that negated delta and the per-kind reason
`"Question vote removed"` or `"Answer vote removed"`. -/
theorem delete_path_reverses_delta
    (db : DBState) (old : VoteRow) (a : Nat) (r : Int)
    (ha : authorOf db old = some a) (hr : getReputation db a = some r) :
    getReputation (handle_vote_delete db old) a =
        some (max 1 (r + (- pointsTable old.question_id.isSome old.is_upvote))) ∧
    (handle_vote_delete db old).reputation_history =
      db.reputation_history ++
        [{ user_id := a
           points := - pointsTable old.question_id.isSome old.is_upvote
           reason := if old.question_id.isSome then "Question vote removed"
             else "Answer vote removed"
           question_id := old.question_id
           answer_id := old.answer_id }] := by
  rcases hqo : old.question_id with _ | qid
  · rcases hvo : old.answer_id with _ | aid
    · exfalso
      simp [authorOf, hqo, hvo] at ha
    · refine ⟨?_, ?_⟩
      · simp only [handle_vote_delete, ha, hqo, hvo]
        rw [getReputation_profiles_update, hr]
        cases hu : old.is_upvote <;> simp [pointsTable, hqo, hu]
      · cases hu : old.is_upvote <;>
          simp [handle_vote_delete, ha, hqo, hvo, pointsTable, hu]
  · refine ⟨?_, ?_⟩
    · simp only [handle_vote_delete, ha, hqo]
      rw [getReputation_profiles_update, hr]
      cases hu : old.is_upvote <;> simp [pointsTable, hqo, hu]
    · cases hu : old.is_upvote <;>
        simp [handle_vote_delete, ha, hqo, pointsTable, hu]

/-- Witness for the amended C4: deleting user 1's question downvote in
the reference db moves the score from 1 by +2 to 3 and appends one
ledger row with `+2` and `"Question vote removed"`. -/
theorem delete_path_reverses_delta_witness :
    getReputation (handle_vote_delete exDB ⟨1, some 0, none, false⟩) 0 =
        some 3 ∧
    (handle_vote_delete exDB ⟨1, some 0, none, false⟩).reputation_history =
      [{ user_id := 0, points := 2, reason := "Question vote removed",
         question_id := some 0, answer_id := none }] := by
  have h := delete_path_reverses_delta exDB ⟨1, some 0, none, false⟩ 0 1
    (by decide) (by decide)
  simpa [exDB, pointsTable] using h

/-- C5: a vote insert or update whose voter is the resolved author of
the targeted question or answer is rejected by the self-vote guard with
an error before the write commits, leaving the database (scores and
ledger) unchanged; when the voter is not the resolved author of either
target the guard returns ok and the write proceeds exactly as the
corresponding ledger path dictates, the guard itself contributing no
side effect. -/
theorem self_vote_guard_correct (db : DBState) (v old : VoteRow) :
    ((v.question_id.bind (lookupAssoc db.questions) = some v.user_id ∨
      v.answer_id.bind (lookupAssoc db.answers) = some v.user_id) →
      (∃ e, prevent_self_voting db v = Except.error e) ∧
      applyVoteOp db (VoteOp.insert v) = db ∧
      applyVoteOp db (VoteOp.update old v) = db) ∧
    (¬ v.question_id.bind (lookupAssoc db.questions) = some v.user_id →
     ¬ v.answer_id.bind (lookupAssoc db.answers) = some v.user_id →
      prevent_self_voting db v = Except.ok () ∧
      applyVoteOp db (VoteOp.insert v) = update_reputation_on_vote db v ∧
      applyVoteOp db (VoteOp.update old v) = handle_vote_update db old v) := by
  constructor
  · intro hself
    have herr : ∃ e, prevent_self_voting db v = Except.error e := by
      rcases hqi : v.question_id with _ | qid
      · rcases hai : v.answer_id with _ | aid
        · exfalso
          rcases hself with hq | ha
          · simp [hqi] at hq
          · simp [hai] at ha
        · refine ⟨"You cannot vote on your own answer", ?_⟩
          have ha : lookupAssoc db.answers aid = some v.user_id := by
            rcases hself with hq | ha
            · simp [hqi] at hq
            · simpa [hai] using ha
          simp [prevent_self_voting, checkSelfQuestion, checkSelfAnswer,
            hqi, hai, ha]
      · by_cases hql : lookupAssoc db.questions qid = some v.user_id
        · refine ⟨"You cannot vote on your own question", ?_⟩
          simp [prevent_self_voting, checkSelfQuestion, hqi, hql]
        · rcases hai : v.answer_id with _ | aid
          · exfalso
            rcases hself with hq | ha
            · exact hql (by simpa [hqi] using hq)
            · simp [hai] at ha
          · refine ⟨"You cannot vote on your own answer", ?_⟩
            have ha : lookupAssoc db.answers aid = some v.user_id := by
              rcases hself with hq | ha
              · exact absurd (by simpa [hqi] using hq) hql
              · simpa [hai] using ha
            simp [prevent_self_voting, checkSelfQuestion, checkSelfAnswer,
              hqi, hai, hql, ha]
    obtain ⟨e, he⟩ := herr
    exact ⟨⟨e, he⟩, by simp [applyVoteOp, he], by simp [applyVoteOp, he]⟩
  · intro hq ha
    have hok : prevent_self_voting db v = Except.ok () := by
      rcases hqi : v.question_id with _ | qid <;>
        rcases hai : v.answer_id with _ | aid <;>
        simp [hqi] at hq <;> simp [hai] at ha <;>
        simp [prevent_self_voting, checkSelfQuestion, checkSelfAnswer,
          hqi, hai, hq, ha]
    exact ⟨hok, by simp [applyVoteOp, hok], by simp [applyVoteOp, hok]⟩

/-- Witness for C5: in the reference db, author 0 upvoting their own
question 0 is rejected and changes nothing, while user 1 doing the same
passes the guard and lands in the insert ledger path. -/
theorem self_vote_guard_correct_witness :
    ((VoteRow.mk 0 (some 0) none true).question_id.bind
        (lookupAssoc exDB.questions) =
      some (VoteRow.mk 0 (some 0) none true).user_id) ∧
    ((∃ e, prevent_self_voting exDB ⟨0, some 0, none, true⟩ =
        Except.error e) ∧
      applyVoteOp exDB (VoteOp.insert ⟨0, some 0, none, true⟩) = exDB ∧
      applyVoteOp exDB
        (VoteOp.update ⟨0, some 0, none, false⟩ ⟨0, some 0, none, true⟩) =
        exDB) ∧
    (prevent_self_voting exDB ⟨1, some 0, none, true⟩ = Except.ok () ∧
      applyVoteOp exDB (VoteOp.insert ⟨1, some 0, none, true⟩) =
        update_reputation_on_vote exDB ⟨1, some 0, none, true⟩) := by
  refine ⟨by decide, ?_, ?_⟩
  · exact (self_vote_guard_correct exDB ⟨0, some 0, none, true⟩
      ⟨0, some 0, none, false⟩).1 (Or.inl (by decide))
  · have h := (self_vote_guard_correct exDB ⟨1, some 0, none, true⟩
      ⟨1, some 0, none, false⟩).2 (by decide) (by decide)
    exact ⟨h.1, h.2.1⟩

/-- C6: the floor clamp is non-invertible.  Concretely: author 0 sits
at the floor score 1; user 1 inserts a question downvote (clamped:
`max 1 (1 - 2) = 1`) and then deletes it (`max 1 (1 + 2) = 3`), so
delete-after-insert leaves the score at 3, not at the pre-insert 1. -/
theorem clamp_not_invertible :
    getReputation exDB 0 = some 1 ∧
    getReputation (applyVoteOp (applyVoteOp exDB
        (VoteOp.insert ⟨1, some 0, none, false⟩))
        (VoteOp.delete ⟨1, some 0, none, false⟩)) 0 = some 3 ∧
    getReputation (applyVoteOp (applyVoteOp exDB
        (VoteOp.insert ⟨1, some 0, none, false⟩))
        (VoteOp.delete ⟨1, some 0, none, false⟩)) 0 ≠
      getReputation exDB 0 := by decide

/-- The C7 scenario, step 1: user 1 upvotes answer 0 of author 0, who
starts at the initial score 1 in the reference db. -/
def scenarioStep1 : DBState :=
  applyVoteOp exDB (VoteOp.insert ⟨1, none, some 0, true⟩)

/-- The C7 scenario, step 2: user 2 downvotes the same answer. -/
def scenarioStep2 : DBState :=
  applyVoteOp scenarioStep1 (VoteOp.insert ⟨2, none, some 0, false⟩)

/-- The C7 scenario, step 3: user 1 retracts the upvote. -/
def scenarioStep3 : DBState :=
  applyVoteOp scenarioStep2 (VoteOp.delete ⟨1, none, some 0, true⟩)

/-- C7, counterexample: the retraction step's ledger entry carries
reason `"Answer vote removed"`, not the bare `"vote removed"` the claim
states. -/
theorem scenario_final_reason_counterexample :
    scenarioStep3.reputation_history.map (fun e => e.reason) =
      ["Answer upvoted", "Answer downvoted", "Answer vote removed"] ∧
    ¬ scenarioStep3.reputation_history.map (fun e => e.reason) =
      ["Answer upvoted", "Answer downvoted", "vote removed"] := by decide

/-- C7, amended: in the scenario the answer upvote yields score 11 with
one ledger entry (+10, "Answer upvoted"); the second voter's downvote
yields score 9 and one further entry (-2); the retraction yields
`max 1 (9 - 10) = 1` and one further entry (-10) whose reason is
`"Answer vote removed"` (the code's per-kind form of "vote removed"). -/
theorem scenario_answer_vote_lifecycle :
    (getReputation scenarioStep1 0 = some 11 ∧
      scenarioStep1.reputation_history.map (fun e => (e.points, e.reason)) =
        [(10, "Answer upvoted")]) ∧
    (getReputation scenarioStep2 0 = some 9 ∧
      scenarioStep2.reputation_history.map (fun e => (e.points, e.reason)) =
        [(10, "Answer upvoted"), (-2, "Answer downvoted")]) ∧
    (getReputation scenarioStep3 0 = some 1 ∧
      scenarioStep3.reputation_history.map (fun e => (e.points, e.reason)) =
        [(10, "Answer upvoted"), (-2, "Answer downvoted"),
         (-10, "Answer vote removed")]) := by decide

/-- C8: when the vote's content author does not resolve (the lookup
yields nothing, including the degenerate row with neither reference
set), each of the three ledger paths is a total silent no-op: no score
change, no ledger entry, no failure. -/
theorem unresolved_author_noop (db : DBState) (v new : VoteRow)
    (ha : authorOf db v = none) :
    update_reputation_on_vote db v = db ∧
    handle_vote_update db v new = db ∧
    handle_vote_delete db v = db := by
  refine ⟨?_, ?_, ?_⟩ <;>
    simp [update_reputation_on_vote, handle_vote_update,
      handle_vote_delete, ha]

/-- Witness for C8: a vote on the nonexistent question 99 resolves no
author and all three paths leave the reference db untouched. -/
theorem unresolved_author_noop_witness :
    authorOf exDB ⟨1, some 99, none, true⟩ = none ∧
    (update_reputation_on_vote exDB ⟨1, some 99, none, true⟩ = exDB ∧
     handle_vote_update exDB ⟨1, some 99, none, true⟩
       ⟨1, some 99, none, false⟩ = exDB ∧
     handle_vote_delete exDB ⟨1, some 99, none, true⟩ = exDB) :=
  ⟨by decide, unresolved_author_noop exDB ⟨1, some 99, none, true⟩
    ⟨1, some 99, none, false⟩ (by decide)⟩

lemma foldl_count {α : Type} (p : α → Bool) (l : List α) (n : Nat) :
    l.foldl (fun s v => s + (if p v then 1 else 0)) n = n + l.countP p := by
  induction l generalizing n with
  | nil => simp
  | cons v l ih =>
    by_cases h : p v
    · simp [List.countP_cons, h, ih]
      omega
    · simp [List.countP_cons, h, ih]

/-- C9: `get_vote_counts` returns exactly (number of upvotes, number of
downvotes) among the votes on the given content item, and the result is
invariant under any permutation (insertion order) of the vote rows.
The embedding is a pure function of the rows: it mutates nothing. -/
theorem vote_counts_pure_aggregation (tid : Nat) (l l' : List VoteRow)
    (hperm : l.Perm l') :
    get_vote_counts "question" tid l =
      some (l.countP (fun v => v.is_upvote && v.question_id == some tid),
            l.countP (fun v => !v.is_upvote && v.question_id == some tid)) ∧
    get_vote_counts "answer" tid l =
      some (l.countP (fun v => v.is_upvote && v.answer_id == some tid),
            l.countP (fun v => !v.is_upvote && v.answer_id == some tid)) ∧
    get_vote_counts "question" tid l = get_vote_counts "question" tid l' ∧
    get_vote_counts "answer" tid l = get_vote_counts "answer" tid l' := by
  have hq : ∀ m : List VoteRow, get_vote_counts "question" tid m =
      some (m.countP (fun v => v.is_upvote && v.question_id == some tid),
            m.countP (fun v => !v.is_upvote && v.question_id == some tid)) := by
    intro m
    simp only [get_vote_counts, if_pos rfl]
    rw [foldl_count (fun v : VoteRow => v.is_upvote),
        foldl_count (fun v : VoteRow => !v.is_upvote),
        List.countP_filter, List.countP_filter]
    simp
  have ha : ∀ m : List VoteRow, get_vote_counts "answer" tid m =
      some (m.countP (fun v => v.is_upvote && v.answer_id == some tid),
            m.countP (fun v => !v.is_upvote && v.answer_id == some tid)) := by
    intro m
    have hne : ¬ ("answer" = "question") := by decide
    simp only [get_vote_counts, if_neg hne, if_pos rfl]
    rw [foldl_count (fun v : VoteRow => v.is_upvote),
        foldl_count (fun v : VoteRow => !v.is_upvote),
        List.countP_filter, List.countP_filter]
    simp
  refine ⟨hq l, ha l, ?_, ?_⟩
  · rw [hq l, hq l', hperm.countP_eq, hperm.countP_eq]
  · rw [ha l, ha l', hperm.countP_eq, hperm.countP_eq]

/-- A concrete vote multiset: three upvotes and one downvote on
answer 7, plus an unrelated question vote. -/
def exVotes : List VoteRow :=
  [⟨1, none, some 7, true⟩, ⟨2, none, some 7, true⟩,
   ⟨3, none, some 7, false⟩, ⟨4, none, some 7, true⟩,
   ⟨5, some 3, none, true⟩]

/-- Witness for C9: the aggregation over `exVotes` yields (3, 1) for
answer 7, and reversing the insertion order leaves the result
unchanged. -/
theorem vote_counts_pure_aggregation_witness :
    exVotes.Perm exVotes.reverse ∧
    get_vote_counts "answer" 7 exVotes = some (3, 1) ∧
    get_vote_counts "answer" 7 exVotes =
      get_vote_counts "answer" 7 exVotes.reverse := by
  have h := vote_counts_pure_aggregation 7 exVotes exVotes.reverse
    exVotes.reverse_perm.symm
  exact ⟨exVotes.reverse_perm.symm, by rw [h.2.1]; decide, h.2.2.2⟩

/-- C10: the update handler runs on every vote update, not only on
direction changes: an update that keeps `is_upvote` (author resolving
via the old row, stored score at least 1 as the floor invariant
guarantees) still appends exactly one ledger entry, with delta 0 and
the per-kind "vote changed" reason, while the author's score is
unchanged. -/
theorem update_same_direction_zero_delta
    (db : DBState) (old new : VoteRow) (a : Nat) (r : Int)
    (hd : old.is_upvote = new.is_upvote)
    (ha : authorOf db old = some a) (hr : getReputation db a = some r)
    (hfloor : 1 ≤ r) :
    getReputation (handle_vote_update db old new) a = some r ∧
    (handle_vote_update db old new).reputation_history =
      db.reputation_history ++
        [{ user_id := a
           points := 0
           reason := if new.question_id.isSome then "Question vote changed"
             else "Answer vote changed"
           question_id := new.question_id
           answer_id := new.answer_id }] := by
  rcases hqo : old.question_id with _ | qid
  · rcases hvo : old.answer_id with _ | aid
    · exfalso
      simp [authorOf, hqo, hvo] at ha
    · refine ⟨?_, ?_⟩
      · simp only [handle_vote_update, hqo, hvo, ha, hd, sub_self]
        rw [getReputation_profiles_update, hr]
        simp [max_eq_right hfloor]
      · rcases hqn : new.question_id with _ | qn <;>
          simp [handle_vote_update, hqo, hvo, hqn, ha, hd, sub_self]
  · refine ⟨?_, ?_⟩
    · simp only [handle_vote_update, hqo, ha, hd, sub_self]
      rw [getReputation_profiles_update, hr]
      simp [max_eq_right hfloor]
    · rcases hqn : new.question_id with _ | qn <;>
        simp [handle_vote_update, hqo, hqn, ha, hd, sub_self]

/-- Witness for C10: user 1 "updates" a question upvote into a question
upvote; author 0's score stays 1 and one zero-delta
"Question vote changed" ledger row is appended. -/
theorem update_same_direction_zero_delta_witness :
    getReputation (handle_vote_update exDB
        ⟨1, some 0, none, true⟩ ⟨1, some 0, none, true⟩) 0 = some 1 ∧
    (handle_vote_update exDB ⟨1, some 0, none, true⟩
        ⟨1, some 0, none, true⟩).reputation_history =
      [{ user_id := 0, points := 0, reason := "Question vote changed",
         question_id := some 0, answer_id := none }] := by
  have h := update_same_direction_zero_delta exDB ⟨1, some 0, none, true⟩
    ⟨1, some 0, none, true⟩ 0 1 rfl (by decide) (by decide) (by decide)
  simpa [exDB] using h

end TechAskWhys
